import Mathlib

/-!
Shallow embedding of `paasta_tools/utils.py` (the bounded-time external-command
execution subsystem): ANSI stripping, the log-component registry, log-record
formatting (`format_log_line`), the log sink (`_log`), the watchdog kill helper
(`_timeout`), the command runner (`_run`) and the atomic file writer
(`atomic_file_write`).  Python strings become `String`, Python ints become
`Int`/`Nat`, raised exceptions become `Except`, and the ambient world (spawned
process behaviour, OS errors, the filesystem, the umask) is passed in
explicitly.  Side effects (echoing to stdout/stderr, emitting to the clog
transport, spawning, timer arming/cancelling) are recorded as an ordered event
trace so that ordering claims can be stated.
-/

/-! ## Constants from the source -/

def ANY_CLUSTER : String := "N/A"

def ANY_INSTANCE : String := "N/A"

def DEFAULT_LOGLEVEL : String := "event"

/-! ## PaastaColors (pure string transforms; used as values in the registry) -/

namespace PaastaColors

def BLUE : String := "\x1B[34m"

def BOLD : String := "\x1B[1m"

def CYAN : String := "\x1B[36m"

def DEFAULT : String := "\x1B[0m"

def GREEN : String := "\x1B[32m"

def GREY : String := "\x1B[1m\x1B[30m"

def RED : String := "\x1B[31m"

def YELLOW : String := "\x1B[33m"

def color_text (color text : String) : String :=
  let replaced := text.replace DEFAULT (DEFAULT ++ color)
  color ++ replaced ++ DEFAULT

def bold (text : String) : String := color_text BOLD text

def blue (text : String) : String := color_text BLUE text

def green (text : String) : String := color_text GREEN text

def red (text : String) : String := color_text RED text

def cyan (text : String) : String := color_text CYAN text

def yellow (text : String) : String := color_text YELLOW text

def grey (text : String) : String := color_text GREY text

def default (text : String) : String := color_text DEFAULT text

end PaastaColors

/-! ## The fixed log-component registry -/

structure LogComponentInfo where
  color : String → String
  help : String
  command : String

def LOG_COMPONENTS : List (String × LogComponentInfo) :=
  [ ("build", ⟨PaastaColors.blue,
      "Jenkins build jobs output, like the itest, promotion, security checks, etc.",
      "NA - TODO: tee jenkins build steps into scribe PAASTA-201"⟩),
    ("deploy", ⟨PaastaColors.cyan,
      "Output from the paasta deploy code. (setup_marathon_job, bounces, etc)",
      "NA - TODO: tee deploy logs into scribe PAASTA-201"⟩),
    ("app_output", ⟨PaastaColors.bold,
      "Stderr and stdout of the actual process spawned by Mesos",
      "NA - PAASTA-78"⟩),
    ("app_request", ⟨PaastaColors.bold,
      "The request log for the service. Defaults to \"service_NAME_requests\"",
      "scribe_reader -e ENV -f service_example_happyhour_requests"⟩),
    ("app_errors", ⟨PaastaColors.red,
      "Application error log, defaults to \"stream_service_NAME_errors\"",
      "scribe_reader -e ENV -f stream_service_SERVICE_errors"⟩),
    ("lb_requests", ⟨PaastaColors.bold,
      "All requests from Smartstack haproxy",
      "NA - TODO: SRV-1130"⟩),
    ("lb_errors", ⟨PaastaColors.red,
      "Logs from Smartstack haproxy that have 400-500 error codes",
      "scribereader -e ENV -f stream_service_errors | grep SERVICE.instance"⟩),
    ("monitoring", ⟨PaastaColors.green,
      "Logs from Sensu checks for the service",
      "NA - TODO log mesos healthcheck and sensu stuff."⟩) ]

/-- Exceptions raised by the embedded code.  `unboundLocalProctimer` models the
Python `UnboundLocalError` raised when `_run` evaluates `proctimer.cancel()`
while `proctimer` was never assigned. -/
inductive PyErr where
  | noSuchLogComponent
  | noSuchLogLevel
  | unboundLocalProctimer
deriving DecidableEq, Repr

/-- `validate_log_component`: membership test against the keys of
`LOG_COMPONENTS`; raises `NoSuchLogComponent` otherwise. -/
def validate_log_component (component : String) : Except PyErr Bool :=
  if component ∈ LOG_COMPONENTS.map Prod.fst then Except.ok true
  else Except.error PyErr.noSuchLogComponent

def get_git_url (service : String) : String :=
  "git@git.yelpcorp.com:services/" ++ service ++ ".git"

/-! ## ANSI escape stripping: `no_escape = re.compile(<ESC \[[0-9;]*[mK]>)`
and `remove_ansi_escape_sequences(line) = no_escape.sub(<empty>, line)`.

Since the final byte class is disjoint from the parameter class, the regex is
deterministic: a match at a given position is the `ESC`, a `[`, the maximal
run of `[0-9;]`, then one of `m`/`K`.  `re.sub` removes leftmost
non-overlapping matches and resumes scanning right after each match. -/

def ESC : Char := '\x1B'

/-- Consume `[0-9;]*` then require a final `m` or `K`; returns what follows
the match.  This is the tail of the regex after `ESC [`. -/
def escSeqParams : List Char → Option (List Char)
  | [] => none
  | c :: rest =>
    if c.isDigit ∨ c = ';' then escSeqParams rest
    else if c = 'm' ∨ c = 'K' then some rest
    else none

/-- Given the characters following an `ESC`, try to match `\[[0-9;]*[mK]`. -/
def escSeqTail : List Char → Option (List Char)
  | '[' :: rest => escSeqParams rest
  | _ => none

/-- Fuelled scan implementing `no_escape.sub(<empty>, ·)` over the character list.
The fuel is an upper bound on the number of characters still to be examined;
`stripEscAux cs.length cs` fully scans `cs`. -/
def stripEscAux : Nat → List Char → List Char
  | 0, cs => cs
  | _ + 1, [] => []
  | fuel + 1, c :: rest =>
    if c = ESC then
      match escSeqTail rest with
      | some rest2 => stripEscAux fuel rest2
      | none => c :: stripEscAux fuel rest
    else c :: stripEscAux fuel rest

/-- `remove_ansi_escape_sequences(line)`: removes ansi escape sequences from
the given line. -/
def remove_ansi_escape_sequences (line : String) : String :=
  ⟨stripEscAux line.data.length line.data⟩

/-! ## `json.dumps(..., sort_keys=True)` for a flat string-valued dict -/

/-- Lexicographic order on character lists by code point, as Python compares
strings. -/
def charListLe : List Char → List Char → Bool
  | [], _ => true
  | _ :: _, [] => false
  | a :: as, b :: bs =>
    if a < b then true
    else if a = b then charListLe as bs
    else false

def keyLe (a b : String) : Bool := charListLe a.data b.data

def hexDigitChar (n : Nat) : Char :=
  if n < 10 then Char.ofNat (48 + n) else Char.ofNat (87 + n)

/-- `\uXXXX` escape for a code unit below `0x10000`. -/
def uEscape4 (n : Nat) : List Char :=
  ['\\', 'u', hexDigitChar (n / 4096 % 16), hexDigitChar (n / 256 % 16),
   hexDigitChar (n / 16 % 16), hexDigitChar (n % 16)]

/-- Escape one character as Python 2 `json.dumps` (default `ensure_ascii=True`)
does: short escapes for the common control characters, backslash and quote;
`\uXXXX` (with surrogate pairs above `0xFFFF`) for everything outside
`0x20`–`0x7e`. -/
def jsonEscapeChar (c : Char) : List Char :=
  if c = '"' then ['\\', '"']
  else if c = '\\' then ['\\', '\\']
  else if c = '\n' then ['\\', 'n']
  else if c = '\r' then ['\\', 'r']
  else if c = '\t' then ['\\', 't']
  else if c.toNat = 8 then ['\\', 'b']
  else if c.toNat = 12 then ['\\', 'f']
  else if c.toNat < 0x20 ∨ c.toNat > 0x7e then
    if c.toNat < 0x10000 then uEscape4 c.toNat
    else uEscape4 (0xD800 + (c.toNat - 0x10000) / 0x400) ++
         uEscape4 (0xDC00 + (c.toNat - 0x10000) % 0x400)
  else [c]

def jsonString (s : String) : String :=
  "\"" ++ ⟨(s.data.map jsonEscapeChar).flatten⟩ ++ "\""

def insertByKey (p : String × String) : List (String × String) → List (String × String)
  | [] => [p]
  | q :: rest => if keyLe p.1 q.1 then p :: q :: rest else q :: insertByKey p rest

def sortByKey : List (String × String) → List (String × String)
  | [] => []
  | p :: rest => insertByKey p (sortByKey rest)

/-- Join with `", "` — the default item separator of `json.dumps`. -/
def joinCommaSp : List String → String
  | [] => ""
  | [x] => x
  | x :: xs => x ++ ", " ++ joinCommaSp xs

def serializeObj (kvs : List (String × String)) : String :=
  "\x7b" ++ joinCommaSp (kvs.map (fun kv => jsonString kv.1 ++ ": " ++ jsonString kv.2)) ++ "\x7d"

/-- `json.dumps(d, sort_keys=True)` for a flat dict of strings: serialize the
entries in sorted key order with separators `", "` and `": "`. -/
def json_dumps_sorted (kvs : List (String × String)) : String :=
  serializeObj (sortByKey kvs)

/-- `format_log_line(level, cluster, instance, component, line)`; the
timestamp produced by `_now()` is passed in explicitly as `ts`.  Validates the
component, strips ANSI sequences from `line`, and serializes the record dict
(written in the source in the order timestamp, level, cluster, instance,
component, message) with `sort_keys=True`. -/
def format_log_line (level cluster instanceName component line ts : String) :
    Except PyErr String :=
  match validate_log_component component with
  | Except.error e => Except.error e
  | Except.ok _ =>
    let line := remove_ansi_escape_sequences line
    Except.ok (json_dumps_sorted
      [("timestamp", ts), ("level", level), ("cluster", cluster),
       ("instance", instanceName), ("component", component), ("message", line)])

def get_log_name_for_service (service_name : String) : String :=
  "stream_paasta_" ++ service_name

/-! ## Side-effect events and the world passed to `_log` / `_run` -/

/-- Observable side effects, recorded in the order they happen:
`print(line, file=sys.stdout)` / `print(line, file=sys.stderr)`,
`clog.log_line(log_name, formatted_line)`, `Popen(...)`,
`proctimer.start()` and `proctimer.cancel()`. -/
inductive Event where
  | spawned
  | timerStarted
  | timerCancelled
  | echoOut (line : String)
  | echoErr (line : String)
  | clogEmit (logName : String) (record : String)
deriving DecidableEq, Repr

/-- `_log(service_name, line, component, level, cluster, instance)`: echo the
raw line to stdout (level `event`) or stderr (level `debug`), raising
`NoSuchLogLevel` for any other level; then derive the stream name, format the
record (which validates the component and strips ANSI sequences) and emit it
through clog.  `ts` is the `_now()` timestamp used by `format_log_line`. -/
def _log (service_name line component level cluster instanceName ts : String) :
    List Event × Except PyErr Unit :=
  let echoStep : List Event × Except PyErr Unit :=
    if level = "event" then ([Event.echoOut line], Except.ok ())
    else if level = "debug" then ([Event.echoErr line], Except.ok ())
    else ([], Except.error PyErr.noSuchLogLevel)
  match echoStep with
  | (evs, Except.error e) => (evs, Except.error e)
  | (evs, Except.ok _) =>
    let log_name := get_log_name_for_service service_name
    match format_log_line level cluster instanceName component line ts with
    | Except.error e => (evs, Except.error e)
    | Except.ok formatted_line =>
      (evs ++ [Event.clogEmit log_name formatted_line], Except.ok ())

/-! ## `_timeout`: the kill action of the watchdog -/

/-- Decidable equality for `Except`, needed so that concrete runs of the
embedded functions can be checked by `decide`. -/
instance {ε α : Type} [DecidableEq ε] [DecidableEq α] : DecidableEq (Except ε α)
  | Except.error e1, Except.error e2 =>
    if h : e1 = e2 then isTrue (by rw [h]) else isFalse (by intro hh; cases hh; exact h rfl)
  | Except.error _, Except.ok _ => isFalse (by intro h; cases h)
  | Except.ok _, Except.error _ => isFalse (by intro h; cases h)
  | Except.ok a1, Except.ok a2 =>
    if h : a1 = a2 then isTrue (by rw [h]) else isFalse (by intro hh; cases hh; exact h rfl)

/-- `errno.ESRCH` ("no such process"). -/
def ESRCH : Nat := 3

/-- What the OS answers when `_timeout` fires: `pollResult` is
`process.poll()` (`none` while the process is still running, the exit status
once it has exited), `killResult` is the outcome of `process.kill()`
(`Except.error errnum` models `OSError` with that errno). -/
structure KillWorld where
  pollResult : Option Int
  killResult : Except Nat Unit
deriving DecidableEq, Repr

/-- `_timeout(process)`: if `poll()` reports the process still running, send
SIGKILL; an `OSError` with errno `ESRCH` is swallowed, any other errno is
re-raised.  The `Bool` records whether a kill was attempted. -/
def _timeout (w : KillWorld) : Bool × Except Nat Unit :=
  match w.pollResult with
  | some _ => (false, Except.ok ())
  | none =>
    match w.killResult with
    | Except.ok _ => (true, Except.ok ())
    | Except.error errnum =>
      (true, if errnum = ESRCH then Except.ok () else Except.error errnum)

/-! ## `_run`: the command runner -/

/-- The data of a Python `OSError` raised by `Popen`. -/
structure OSErrInfo where
  errno : Int
  strerror : String
deriving DecidableEq, Repr

/-- Behaviour of a successfully spawned child process: the lines successively
returned by `process.stdout.readline` (each as read, normally ending in a
newline) and the exit status returned by `process.wait()`. -/
structure ProcBehavior where
  lines : List String
  exitcode : Int
deriving DecidableEq, Repr

/-- The `**kwargs` of `_run` that matter when `log=True`: `service_name` and
`component` are mandatory (a `KeyError` lookup), the rest are looked up with
defaults (`kwargs.get(key, default)`: cluster defaults to ANY_CLUSTER, the
instance to ANY_INSTANCE, the loglevel to DEFAULT_LOGLEVEL). -/
structure LogKwargs where
  service_name : String
  component : String
  cluster : Option String
  instanceName : Option String
  loglevel : Option String
deriving DecidableEq, Repr

/-- Python `line.rstrip(newline)`: remove all trailing newline characters. -/
def rstripNewline (s : String) : String :=
  ⟨(s.data.reverse.dropWhile (fun c => c = '\n')).reverse⟩

/-- Python `newline.join(output)`. -/
def joinLines : List String → String
  | [] => ""
  | [l] => l
  | l :: ls => l ++ "\n" ++ joinLines ls

/-- Rendering of the `%s`-interpolated timeout value: `str(None)` is
`"None"`, a numeric timeout renders in decimal. -/
def timeoutRepr : Option Nat → String
  | none => "None"
  | some n => toString n

/-- The synthetic line `Command <command> timed out (longer than <timeout>s)`,
with the command quoted by the %s-interpolation of the source. -/
def timedOutLine (command : String) (timeout : Option Nat) : String :=
  "Command \x27" ++ command ++ "\x27 timed out (longer than " ++ timeoutRepr timeout ++ "s)"

/-- The read loop of `_run`, `for line in iter(process.stdout.readline, <empty>)`: for
each line, first (when `log` is set) hand the newline-stripped line to `_log`
— whose exceptions propagate, aborting the loop — then append the stripped
line to the output buffer. -/
def readLoop (log : Bool) (service_name component loglevel cluster instanceName ts : String) :
    List String → List Event × Except PyErr (List String)
  | [] => ([], Except.ok [])
  | l :: ls =>
    let stripped := rstripNewline l
    let logStep : List Event × Except PyErr Unit :=
      if log then _log service_name stripped component loglevel cluster instanceName ts
      else ([], Except.ok ())
    match logStep with
    | (evs, Except.error e) => (evs, Except.error e)
    | (evs, Except.ok _) =>
      match readLoop log service_name component loglevel cluster instanceName ts ls with
      | (evs2, Except.error e) => (evs ++ evs2, Except.error e)
      | (evs2, Except.ok out) => (evs ++ evs2, Except.ok (stripped :: out))

/-- `_run(command, env, timeout, log, **kwargs)`.  `world` is the outcome of
`Popen`: `Except.error e` when the spawn raises `OSError e` (caught by the
`except OSError` handler), `Except.ok proc` when the child starts and behaves
as `proc`.  `ts` is the timestamp used for any log records.  Control flow of
the source, in order: resolve kwargs; `Popen`; start the timer if a timeout
was given; the read loop (logging each line before buffering it); `wait()`;
on `OSError`: log and buffer `e.strerror` and use `e.errno` as the return
code; then `if timeout: proctimer.cancel()` — which, when the spawn failed,
dereferences the never-assigned local `proctimer` and raises
`UnboundLocalError`; then append the timed-out line if the return code is
`-9`; finally return `(returncode, newline.join(output))`. -/
def _run (command : String) (timeout : Option Nat) (log : Bool) (kw : LogKwargs)
    (world : Except OSErrInfo ProcBehavior) (ts : String) :
    List Event × Except PyErr (Int × String) :=
  let cluster := kw.cluster.getD ANY_CLUSTER
  let instanceName := kw.instanceName.getD ANY_INSTANCE
  let loglevel := kw.loglevel.getD DEFAULT_LOGLEVEL
  match world with
  | Except.error e =>
    let logStep : List Event × Except PyErr Unit :=
      if log then
        _log kw.service_name (rstripNewline e.strerror) kw.component loglevel cluster
          instanceName ts
      else ([], Except.ok ())
    match logStep with
    | (evs, Except.error pe) => (evs, Except.error pe)
    | (evs, Except.ok _) =>
      match timeout with
      | some _ => (evs, Except.error PyErr.unboundLocalProctimer)
      | none =>
        let output := [rstripNewline e.strerror]
        let output :=
          if e.errno = -9 then output ++ [timedOutLine command timeout] else output
        (evs, Except.ok (e.errno, joinLines output))
  | Except.ok proc =>
    let evs0 := Event.spawned ::
      (if timeout.isSome then [Event.timerStarted] else [])
    match readLoop log kw.service_name kw.component loglevel cluster instanceName ts
        proc.lines with
    | (evs, Except.error e) => (evs0 ++ evs, Except.error e)
    | (evs, Except.ok output) =>
      let evs1 := evs0 ++ evs ++ (if timeout.isSome then [Event.timerCancelled] else [])
      let output :=
        if proc.exitcode = -9 then output ++ [timedOutLine command timeout] else output
      (evs1, Except.ok (proc.exitcode, joinLines output))

/-! ## `get_umask` and `atomic_file_write` -/

/-- `get_umask()`: `os.umask(0022)` returns the current mask (temporarily
setting `0o22`), and a second `os.umask(old_umask)` restores it; the net
effect in a single-threaded run is a pure query of the ambient mask. -/
def get_umask (current_umask : Int) : Int := current_umask

/-- `os.path.basename`, POSIX flavour: everything after the last slash. -/
def basenameL (p : List Char) : List Char :=
  (p.reverse.takeWhile (fun c => c != '/')).reverse

/-- `p[:i]` where `i` is just past the last slash: the head of the path -
slash (empty when there is no slash). -/
def headSlashL (p : List Char) : List Char :=
  (p.reverse.dropWhile (fun c => c != '/')).reverse

/-- `os.path.dirname`, POSIX flavour: the head up to the last slash, with
trailing slashes stripped unless the head consists only of slashes. -/
def dirnameL (p : List Char) : List Char :=
  let h := headSlashL p
  if h.all (fun c => c == '/') then h
  else (h.reverse.dropWhile (fun c => c == '/')).reverse

def osBasename (p : String) : String := ⟨basenameL p.data⟩

def osDirname (p : String) : String := ⟨dirnameL p.data⟩

/-- `os.path.join(a, b)`, POSIX flavour, for a single component `b`. -/
def osJoin (a b : String) : String :=
  if b.data.head? = some '/' then b
  else if a = "" ∨ a.data.getLast? = some '/' then a ++ b
  else a ++ "/" ++ b

/-- Mode bits of a file freshly created by `tempfile.NamedTemporaryFile`
(via `mkstemp`): `0o600`. -/
def tempFileMode : Int := 0o600

/-- The observable state of a file: its byte content and its permission bits. -/
structure FileState where
  content : String
  mode : Int
deriving DecidableEq, Repr

/-- A filesystem is a partial map from paths to file states. -/
def fsUpdate (fs : String → Option FileState) (p : String) (v : Option FileState) :
    String → Option FileState :=
  fun q => if q = p then v else fs q

/-- The staging path chosen by `tempfile.NamedTemporaryFile(dir=dirname,
prefix=.basename-)`: `os.path.join(dirname, <dot> + basename + <dash> +
<random suffix>)`. -/
def tempPathFor (target_path tmpSuffix : String) : String :=
  osJoin (osDirname target_path) ("." ++ osBasename target_path ++ "-" ++ tmpSuffix)

/-- `atomic_file_write(target_path)` as a function of the whole scope:
`body.1` is the content the scope writes into the staging file, `body.2` is
how the scope exits.  The staging file is created (empty would be mode
`0o600`; we record the content the body wrote, since the body runs inside the
`with` block) in the same directory as the target; on normal exit the code
then chmods it to `0666 & ~get_umask()` and renames it over the target.  If
the body raises, the `__exit__` of `NamedTemporaryFile` only closes the handle
(`delete=False`), the exception propagates, and neither `chmod` nor `rename`
runs. -/
def atomic_file_write (current_umask : Int) (fs0 : String → Option FileState)
    (target_path tmpSuffix : String) (body : String × Except PyErr Unit) :
    (String → Option FileState) × Except PyErr Unit :=
  let temp_target_path := tempPathFor target_path tmpSuffix
  let fs1 := fsUpdate fs0 temp_target_path (some ⟨body.1, tempFileMode⟩)
  match body.2 with
  | Except.error e => (fs1, Except.error e)
  | Except.ok _ =>
    let mode := Int.land 0o666 (Int.lnot (get_umask current_umask))
    let fs2 := fsUpdate fs1 temp_target_path (some ⟨body.1, mode⟩)
    let fs3 := fsUpdate (fsUpdate fs2 target_path (fs2 temp_target_path))
      temp_target_path none
    (fs3, Except.ok ())

/-! ## Helper lemmas -/

/-- A string whose sanitized form is wanted unchanged: if no `ESC` occurs in
the character list, the stripping scan is the identity, for any fuel. -/
theorem stripEscAux_of_no_esc : ∀ (fuel : Nat) (cs : List Char), ESC ∉ cs →
    stripEscAux fuel cs = cs
  | 0, _, _ => rfl
  | _ + 1, [], _ => rfl
  | fuel + 1, c :: rest, h => by
    have hc : ¬ c = ESC := fun hh => h (hh ▸ List.mem_cons_self c rest)
    simp only [stripEscAux, if_neg hc]
    rw [stripEscAux_of_no_esc fuel rest (fun hm => h (List.mem_cons_of_mem c hm))]

/-- The read loop with `log=False` produces no events and buffers exactly the
newline-stripped lines, in order. -/
theorem readLoop_nolog (a b c d e f : String) : ∀ ls : List String,
    readLoop false a b c d e f ls = ([], Except.ok (ls.map rstripNewline))
  | [] => rfl
  | l :: ls => by
    simp only [readLoop, if_neg (Bool.false_ne_true), readLoop_nolog a b c d e f ls,
      List.map_cons, List.nil_append]

/-- Joining a buffer that ends with a designated line yields a string that
ends with that line. -/
theorem joinLines_concat : ∀ (ls : List String) (x : String),
    ∃ p : String, joinLines (ls ++ [x]) = p ++ x
  | [], x => ⟨"", by simp [joinLines]⟩
  | l :: ls, x => by
    obtain ⟨p, hp⟩ := joinLines_concat ls x
    cases ls with
    | nil => exact ⟨l ++ "\n", rfl⟩
    | cons b bs =>
      refine ⟨(l ++ "\n") ++ p, ?_⟩
      have hstep : joinLines ((l :: b :: bs) ++ [x])
          = (l ++ "\n") ++ joinLines ((b :: bs) ++ [x]) := rfl
      rw [hstep, hp]
      simp [String.append_assoc]

/-- `_log` with an unregistered component at level `event`: the raw line is
echoed to stdout, then `format_log_line` raises; nothing reaches clog. -/
theorem log_invalid_component_event (service_name line component cluster instanceName ts : String)
    (h : component ∉ LOG_COMPONENTS.map Prod.fst) :
    _log service_name line component "event" cluster instanceName ts
      = ([Event.echoOut line], Except.error PyErr.noSuchLogComponent) := by
  simp [_log, format_log_line, validate_log_component, h]

/-- `_log` with an unregistered component at level `debug`: the raw line is
echoed to stderr, then `format_log_line` raises; nothing reaches clog. -/
theorem log_invalid_component_debug (service_name line component cluster instanceName ts : String)
    (h : component ∉ LOG_COMPONENTS.map Prod.fst) :
    _log service_name line component "debug" cluster instanceName ts
      = ([Event.echoErr line], Except.error PyErr.noSuchLogComponent) := by
  simp [_log, format_log_line, validate_log_component, h]

/-- The timed-out line rendered with `timeout=None`. -/
theorem timedOutLine_none (command : String) :
    timedOutLine command none
      = "Command \x27" ++ command ++ "\x27 timed out (longer than Nones)" := by
  simp only [timedOutLine, timeoutRepr, String.append_assoc]
  rfl

/-- Whenever `_run` returns normally, its output string is the join of some
buffer followed by the timed-out line exactly when the return code is `-9`. -/
theorem run_ok_output_shape (command : String) (timeout : Option Nat) (log : Bool)
    (kw : LogKwargs) (world : Except OSErrInfo ProcBehavior) (ts : String)
    (rc : Int) (out : String)
    (hret : (_run command timeout log kw world ts).2 = Except.ok (rc, out)) :
    ∃ buffered : List String,
      out = joinLines (buffered
        ++ (if rc = -9 then [timedOutLine command timeout] else [])) := by
  cases world with
  | error e =>
    rcases hl : (if log then
        _log kw.service_name (rstripNewline e.strerror) kw.component
          (kw.loglevel.getD DEFAULT_LOGLEVEL) (kw.cluster.getD ANY_CLUSTER)
          (kw.instanceName.getD ANY_INSTANCE) ts
      else ([], Except.ok ())) with ⟨evs, lr⟩
    cases lr with
    | error pe => simp [_run, hl] at hret
    | ok _ =>
      cases timeout with
      | some n => simp [_run, hl] at hret
      | none =>
        refine ⟨[rstripNewline e.strerror], ?_⟩
        by_cases h9 : e.errno = -9
        · simp [_run, hl, h9] at hret
          simp [← hret.2, h9, hret.1]
        · simp [_run, hl, h9] at hret
          have hrc : ¬ rc = -9 := by rw [← hret.1]; exact h9
          simp [← hret.2, hrc]
  | ok proc =>
    rcases hr : readLoop log kw.service_name kw.component
        (kw.loglevel.getD DEFAULT_LOGLEVEL) (kw.cluster.getD ANY_CLUSTER)
        (kw.instanceName.getD ANY_INSTANCE) ts proc.lines with ⟨evs, res⟩
    cases res with
    | error e => simp [_run, hr] at hret
    | ok output =>
      refine ⟨output, ?_⟩
      by_cases h9 : proc.exitcode = -9
      · simp [_run, hr, h9] at hret
        simp [← hret.2, h9, hret.1]
      · simp [_run, hr, h9] at hret
        have hrc : ¬ rc = -9 := by rw [← hret.1]; exact h9
        simp [← hret.2, hrc]

/-! ## Claim theorems -/

/-- Claim C7: when the watchdog fires against a process that has already
exited, the kill resolves silently to a no-op — either `poll()` already
reports an exit status and no kill is attempted, or the kill raises ESRCH
(no such process) and the error is swallowed; OS errors with any other errno
are re-raised. -/
theorem timeout_kill_race_noop (w : KillWorld) :
    (∀ code : Int, w.pollResult = some code → _timeout w = (false, Except.ok ()))
    ∧ (w.pollResult = none → w.killResult = Except.error ESRCH →
        _timeout w = (true, Except.ok ()))
    ∧ (∀ errnum : Nat, w.pollResult = none → w.killResult = Except.error errnum →
        errnum ≠ ESRCH → _timeout w = (true, Except.error errnum)) := by
  refine ⟨?_, ?_, ?_⟩
  · intro code h
    simp [_timeout, h]
  · intro h1 h2
    simp [_timeout, h1, h2]
  · intro errnum h1 h2 h3
    simp [_timeout, h1, h2, h3]

/-- Witness for C7 at concrete worlds: the ESRCH race is swallowed, another
errno is re-raised. -/
theorem timeout_kill_race_noop_witness :
    _timeout ⟨none, Except.error ESRCH⟩ = (true, Except.ok ())
    ∧ _timeout ⟨none, Except.error 13⟩ = (true, Except.error 13) :=
  ⟨(timeout_kill_race_noop ⟨none, Except.error ESRCH⟩).2.1 rfl rfl,
   (timeout_kill_race_noop ⟨none, Except.error 13⟩).2.2 13 rfl rfl (by decide)⟩

/-- Claim C2 (code bug): a spawn failure (here ENOENT, errno 2) is absorbed
into a normal `(2, strerror)` result only when no timeout was configured;
with a timeout configured, `_run` reaches `proctimer.cancel()` with the local
`proctimer` never assigned and raises instead of returning. -/
theorem run_spawn_failure_with_timeout_crashes :
    _run "/bin/nope" none false ⟨"s", "deploy", none, none, none⟩
        (Except.error ⟨2, "No such file or directory"⟩) "t"
      = ([], Except.ok (2, "No such file or directory"))
    ∧ _run "/bin/nope" (some 10) false ⟨"s", "deploy", none, none, none⟩
        (Except.error ⟨2, "No such file or directory"⟩) "t"
      = ([], Except.error PyErr.unboundLocalProctimer) := by
  constructor <;> decide

/-- Claim C4 counterexample: sanitization is not idempotent.  One pass over
`ESC ESC [31m [0m` removes the inner escape sequence and thereby exposes the
new sequence `ESC [0m`, which a second pass removes. -/
theorem sanitize_not_idempotent_cex :
    remove_ansi_escape_sequences (remove_ansi_escape_sequences "\x1B\x1B[31m[0m")
      ≠ remove_ansi_escape_sequences "\x1B\x1B[31m[0m" := by
  decide

/-- Claim C4 (amended): sanitization is idempotent on every input whose
sanitized form contains no remaining ESC character — in particular whenever a
single pass removed every ESC. -/
theorem sanitize_idempotent_of_no_esc (x : String)
    (h : ESC ∉ (remove_ansi_escape_sequences x).data) :
    remove_ansi_escape_sequences (remove_ansi_escape_sequences x)
      = remove_ansi_escape_sequences x := by
  unfold remove_ansi_escape_sequences at h ⊢
  exact String.ext (stripEscAux_of_no_esc _ _ h)

/-- Witness for the amended C4 at a concrete input containing an escape
sequence. -/
theorem sanitize_idempotent_of_no_esc_witness :
    ESC ∉ (remove_ansi_escape_sequences "a\x1B[31mb").data
    ∧ remove_ansi_escape_sequences (remove_ansi_escape_sequences "a\x1B[31mb")
      = remove_ansi_escape_sequences "a\x1B[31mb" :=
  ⟨by decide, sanitize_idempotent_of_no_esc "a\x1B[31mb" (by decide)⟩

/-- Claim C9: `_log` echoes the raw, pre-sanitization line — to stdout at
level `event`, to stderr at level `debug` — before validating the component,
so an unregistered component still produces exactly the echo and then the
`NoSuchLogComponent` failure, with nothing emitted to clog. -/
theorem log_echo_precedes_component_validation
    (service_name line component cluster instanceName ts : String)
    (h : component ∉ LOG_COMPONENTS.map Prod.fst) :
    _log service_name line component "event" cluster instanceName ts
      = ([Event.echoOut line], Except.error PyErr.noSuchLogComponent)
    ∧ _log service_name line component "debug" cluster instanceName ts
      = ([Event.echoErr line], Except.error PyErr.noSuchLogComponent) :=
  ⟨log_invalid_component_event service_name line component cluster instanceName ts h,
   log_invalid_component_debug service_name line component cluster instanceName ts h⟩

/-- Witness for C9: an unregistered component with a colored line is echoed
raw (escape sequences intact) and then fails. -/
theorem log_echo_precedes_component_validation_witness :
    "bogus" ∉ LOG_COMPONENTS.map Prod.fst
    ∧ _log "svc" "\x1B[31mred\x1B[0m" "bogus" "event" "c" "i" "t"
      = ([Event.echoOut "\x1B[31mred\x1B[0m"], Except.error PyErr.noSuchLogComponent) :=
  ⟨by decide,
   (log_echo_precedes_component_validation "svc" "\x1B[31mred\x1B[0m" "bogus" "c" "i" "t"
      (by decide)).1⟩

/-- Claim C5 counterexample: without a timeout, a process that exits with
status `-9` (killed externally) does not yield output equal to its stripped
stream lines — `_run` appends the synthetic timed-out line as well, so the
claimed equality fails at this input. -/
theorem run_no_timeout_claim_cex :
    (_run "x" none false ⟨"s", "deploy", none, none, none⟩
        (Except.ok ⟨[], -9⟩) "t").2
      ≠ Except.ok ((-9 : Int), joinLines (([] : List String).map rstripNewline)) := by
  decide

/-- Claim C5 (amended): without a timeout and with a final exit status other
than `-9`, `_run` returns the real exit status together with exactly the
newline-stripped lines of the merged stream, in order, joined by newlines —
and its only side effect is the spawn itself. -/
theorem run_no_timeout_exact_output (command : String) (kw : LogKwargs) (ts : String)
    (proc : ProcBehavior) (h : proc.exitcode ≠ -9) :
    _run command none false kw (Except.ok proc) ts
      = ([Event.spawned],
         Except.ok (proc.exitcode, joinLines (proc.lines.map rstripNewline))) := by
  simp [_run, readLoop_nolog, h]

/-- Witness for the amended C5 at a concrete two-line process. -/
theorem run_no_timeout_exact_output_witness :
    _run "echo hi" none false ⟨"s", "deploy", none, none, none⟩
        (Except.ok ⟨["hi\n", "ho\n"], 0⟩) "t"
      = ([Event.spawned],
         Except.ok ((0 : Int), joinLines (["hi\n", "ho\n"].map rstripNewline))) :=
  run_no_timeout_exact_output "echo hi" ⟨"s", "deploy", none, none, none⟩ "t"
    ⟨["hi\n", "ho\n"], 0⟩ (by decide)

/-- Claim C3: on a spawned process, `_run` appends the synthetic line
`Command <command> timed out (longer than <timeout>s)` to the buffered output
exactly when the final exit code equals the kill sentinel `-9`; and any
output buffer ending with that synthetic line joins to a string that ends
with it. -/
theorem run_sentinel_line_iff (command : String) (timeout : Option Nat)
    (kw : LogKwargs) (ts : String) (proc : ProcBehavior) :
    (_run command timeout false kw (Except.ok proc) ts).2
      = Except.ok (proc.exitcode, joinLines (proc.lines.map rstripNewline
          ++ (if proc.exitcode = -9 then [timedOutLine command timeout] else [])))
    ∧ ∀ buffered : List String, ∃ p : String,
        joinLines (buffered ++ [timedOutLine command timeout])
          = p ++ timedOutLine command timeout := by
  constructor
  · by_cases h : proc.exitcode = -9 <;> simp [_run, readLoop_nolog, h]
  · intro buffered
    exact joinLines_concat buffered (timedOutLine command timeout)

/-- Claim C10: whenever `_run` returns normally with exit code `-9` and no
timeout was configured — e.g. the child was SIGKILLed externally — the output
still ends with the synthetic timed-out line, whose duration slot renders the
absent timeout as the text `None`. -/
theorem run_neg9_without_timeout_appends_none_line (command : String)
    (timeout : Option Nat) (log : Bool) (kw : LogKwargs)
    (world : Except OSErrInfo ProcBehavior) (ts : String) (rc : Int) (out : String)
    (hret : (_run command timeout log kw world ts).2 = Except.ok (rc, out))
    (h9 : rc = -9) (hto : timeout = none) :
    ∃ p : String,
      out = p ++ ("Command \x27" ++ command ++ "\x27 timed out (longer than Nones)") := by
  subst hto
  obtain ⟨buffered, hb⟩ := run_ok_output_shape command none log kw world ts rc out hret
  rw [if_pos h9] at hb
  obtain ⟨p, hp⟩ := joinLines_concat buffered (timedOutLine command none)
  exact ⟨p, by rw [hb, hp, timedOutLine_none]⟩

/-- Witness for C10: a process with no output lines, exit status `-9`, no
timeout. -/
theorem run_neg9_without_timeout_appends_none_line_witness :
    ∃ p : String,
      "Command \x27x\x27 timed out (longer than Nones)"
        = p ++ ("Command \x27" ++ "x" ++ "\x27 timed out (longer than Nones)") :=
  run_neg9_without_timeout_appends_none_line "x" none false
    ⟨"s", "deploy", none, none, none⟩ (Except.ok ⟨[], -9⟩) "t" (-9)
    "Command \x27x\x27 timed out (longer than Nones)" (by decide) rfl rfl

/-- Claim C1 counterexample: with logging enabled and the unregistered
component `bogus`, the call does not fail before the child is spawned — the
spawn event is in the trace (and the first raw line was even echoed) before
the `NoSuchLogComponent` failure surfaces. -/
theorem run_invalid_component_spawns_cex :
    Event.spawned ∈ (_run "sleep 1" none true ⟨"svc", "bogus", none, none, none⟩
        (Except.ok ⟨["hello\n"], 0⟩) "t").1
    ∧ (_run "sleep 1" none true ⟨"svc", "bogus", none, none, none⟩
        (Except.ok ⟨["hello\n"], 0⟩) "t").2 = Except.error PyErr.noSuchLogComponent := by
  decide

/-- Claim C1 (amended): `_run` performs no eager validation of the logging
parameters.  With an unregistered component and the (default) level `event`,
the `NoSuchLogComponent` failure surfaces only at the first captured line —
after the child was spawned, after the timer (if any) was started, and after
the raw line was echoed; and if the child produces no output at all, the call
returns normally and the invalid component is never noticed. -/
theorem run_component_validation_is_lazy (command : String) (timeout : Option Nat)
    (kw : LogKwargs) (ts : String) (l : String) (ls : List String) (rc : Int)
    (hcomp : kw.component ∉ LOG_COMPONENTS.map Prod.fst)
    (hlevel : kw.loglevel.getD DEFAULT_LOGLEVEL = "event") :
    _run command timeout true kw (Except.ok ⟨l :: ls, rc⟩) ts
      = (Event.spawned :: ((if timeout.isSome then [Event.timerStarted] else [])
          ++ [Event.echoOut (rstripNewline l)]), Except.error PyErr.noSuchLogComponent)
    ∧ _run command none true kw (Except.ok ⟨[], rc⟩) ts
      = ([Event.spawned], Except.ok (rc,
          joinLines (if rc = -9 then [timedOutLine command none] else []))) := by
  have hl := log_invalid_component_event kw.service_name (rstripNewline l) kw.component
    (kw.cluster.getD ANY_CLUSTER) (kw.instanceName.getD ANY_INSTANCE) ts hcomp
  constructor
  · simp [_run, readLoop, hlevel, hl]
  · by_cases h9 : rc = -9 <;> simp [_run, readLoop, h9]

/-- Witness for the amended C1: concrete run with component `bogus`, one
output line, a configured timeout. -/
theorem run_component_validation_is_lazy_witness :
    _run "sleep 5" (some 1) true ⟨"svc", "bogus", none, none, none⟩
        (Except.ok ⟨["hello\n"], 0⟩) "t"
      = (Event.spawned :: ((if (some 1 : Option Nat).isSome then [Event.timerStarted] else [])
          ++ [Event.echoOut (rstripNewline "hello\n")]), Except.error PyErr.noSuchLogComponent)
    ∧ _run "sleep 5" none true ⟨"svc", "bogus", none, none, none⟩
        (Except.ok ⟨[], 0⟩) "t"
      = ([Event.spawned], Except.ok ((0 : Int),
          joinLines (if (0 : Int) = -9 then [timedOutLine "sleep 5" none] else []))) :=
  run_component_validation_is_lazy "sleep 5" (some 1) ⟨"svc", "bogus", none, none, none⟩
    "t" "hello\n" [] 0 (by decide) rfl

/-- Sorting the log-record dict by key puts the six fixed keys into the order
cluster, component, instance, level, message, timestamp, whatever the values
are. -/
theorem sortByKey_log_record (ts level cluster instanceName component message : String) :
    sortByKey [("timestamp", ts), ("level", level), ("cluster", cluster),
        ("instance", instanceName), ("component", component), ("message", message)]
      = [("cluster", cluster), ("component", component), ("instance", instanceName),
         ("level", level), ("message", message), ("timestamp", ts)] := rfl

/-- Claim C8: the log-record formatter is a pure function of its five inputs
and the timestamp, and serializes the six fields in the fixed order cluster,
component, instance, level, message, timestamp with the message being the
ANSI-stripped input line — so two records built from identical inputs are
byte-identical. -/
theorem format_log_line_deterministic_fields
    (level cluster instanceName component line ts : String)
    (h : component ∈ LOG_COMPONENTS.map Prod.fst) :
    format_log_line level cluster instanceName component line ts
      = Except.ok ("\x7b\"cluster\": " ++ jsonString cluster
          ++ ", \"component\": " ++ jsonString component
          ++ ", \"instance\": " ++ jsonString instanceName
          ++ ", \"level\": " ++ jsonString level
          ++ ", \"message\": " ++ jsonString (remove_ansi_escape_sequences line)
          ++ ", \"timestamp\": " ++ jsonString ts ++ "\x7d") := by
  simp only [format_log_line, validate_log_component, if_pos h, json_dumps_sorted,
    sortByKey_log_record, serializeObj, List.map_cons, List.map_nil, joinCommaSp,
    String.append_assoc]
  rfl

/-- Witness for C8 at a concrete record with a colored message. -/
theorem format_log_line_deterministic_fields_witness :
    "deploy" ∈ LOG_COMPONENTS.map Prod.fst
    ∧ format_log_line "event" "c1" "i1" "deploy" "line\x1B[31m!" "2015-01-01T00:00:00"
      = Except.ok ("\x7b\"cluster\": " ++ jsonString "c1"
          ++ ", \"component\": " ++ jsonString "deploy"
          ++ ", \"instance\": " ++ jsonString "i1"
          ++ ", \"level\": " ++ jsonString "event"
          ++ ", \"message\": " ++ jsonString (remove_ansi_escape_sequences "line\x1B[31m!")
          ++ ", \"timestamp\": " ++ jsonString "2015-01-01T00:00:00" ++ "\x7d") :=
  ⟨by decide,
   format_log_line_deterministic_fields "event" "c1" "i1" "deploy" "line\x1B[31m!"
     "2015-01-01T00:00:00" (by decide)⟩

/-! ## Path lemmas for `atomic_file_write` -/

/-- `takeWhile` over an append whose first part satisfies the predicate
throughout. -/
theorem takeWhile_append_of_all {α : Type} {p : α → Bool} :
    ∀ (l1 l2 : List α), (∀ c ∈ l1, p c = true) →
      List.takeWhile p (l1 ++ l2) = l1 ++ List.takeWhile p l2
  | [], _, _ => rfl
  | a :: l1, l2, h => by
    have ha : p a = true := h a (List.mem_cons_self a l1)
    simp only [List.cons_append, List.takeWhile_cons, ha, if_true,
      takeWhile_append_of_all l1 l2 (fun c hc => h c (List.mem_cons_of_mem a hc))]

/-- `dropWhile` over an append whose first part satisfies the predicate
throughout. -/
theorem dropWhile_append_of_all {α : Type} {p : α → Bool} :
    ∀ (l1 l2 : List α), (∀ c ∈ l1, p c = true) →
      List.dropWhile p (l1 ++ l2) = List.dropWhile p l2
  | [], _, _ => rfl
  | a :: l1, l2, h => by
    have ha : p a = true := h a (List.mem_cons_self a l1)
    simp only [List.cons_append, List.dropWhile_cons, ha, if_true,
      dropWhile_append_of_all l1 l2 (fun c hc => h c (List.mem_cons_of_mem a hc))]

/-- The head surviving a `dropWhile` falsifies the predicate. -/
theorem head?_dropWhile_false {α : Type} {p : α → Bool} :
    ∀ (l : List α) (a : α), (List.dropWhile p l).head? = some a → p a = false
  | [], a, h => by simp [List.dropWhile] at h
  | b :: l, a, h => by
    by_cases hb : p b = true
    · exact head?_dropWhile_false l a (by simpa [List.dropWhile_cons, hb] using h)
    · rw [List.dropWhile_cons, if_neg hb] at h
      simp only [List.head?_cons, Option.some.injEq] at h
      rw [← h]
      exact Bool.eq_false_iff.mpr hb

/-- No slash survives into a POSIX basename. -/
theorem basenameL_no_slash (p : List Char) : ∀ c ∈ basenameL p, (c != '/') = true := by
  intro c hc
  rw [basenameL, List.mem_reverse] at hc
  exact @List.mem_takeWhile_imp _ (fun c => c != '/') p.reverse c hc

/-- Basename of an append whose tail holds no slash. -/
theorem basenameL_append (a n : List Char) (hn : ∀ c ∈ n, (c != '/') = true) :
    basenameL (a ++ n)
      = (a.reverse.takeWhile (fun c => c != '/')).reverse ++ n := by
  rw [basenameL, List.reverse_append,
    takeWhile_append_of_all n.reverse a.reverse
      (fun c hc => hn c (List.mem_reverse.mp hc)),
    List.reverse_append, List.reverse_reverse]

/-- Basename of a slash-free list is the list itself. -/
theorem basenameL_of_no_slash (n : List Char) (hn : ∀ c ∈ n, (c != '/') = true) :
    basenameL n = n := by
  have h := basenameL_append [] n hn
  simpa using h

/-- Basename of `a ++ n` is `n` when `a` ends in a slash and `n` is
slash-free. -/
theorem basenameL_append_of_last_slash (a n : List Char)
    (ha : a.reverse.head? = some '/') (hn : ∀ c ∈ n, (c != '/') = true) :
    basenameL (a ++ n) = n := by
  rw [basenameL_append a n hn]
  cases hrev : a.reverse with
  | nil => rw [hrev] at ha; cases ha
  | cons x xs =>
    rw [hrev] at ha
    simp only [List.head?_cons, Option.some.injEq] at ha
    subst ha
    simp [List.takeWhile_cons]

/-- Dirname of a slash-free list is empty. -/
theorem dirnameL_of_no_slash (n : List Char) (hn : ∀ c ∈ n, (c != '/') = true) :
    dirnameL n = [] := by
  have hdrop : n.reverse.dropWhile (fun c => c != '/') = [] :=
    List.dropWhile_eq_nil_iff.mpr (fun c hc => hn c (List.mem_reverse.mp hc))
  simp [dirnameL, headSlashL, hdrop]

/-- The characters of the staging file name `.basename-suffix` contain no
slash. -/
theorem tempName_no_slash (target_path tmpSuffix : String) (hs : '/' ∉ tmpSuffix.data) :
    ∀ c ∈ ("." ++ osBasename target_path ++ "-" ++ tmpSuffix).data,
      (c != '/') = true := by
  have hnd : ("." ++ osBasename target_path ++ "-" ++ tmpSuffix).data
      = ((['.'] ++ basenameL target_path.data) ++ ['-']) ++ tmpSuffix.data := rfl
  rw [hnd]
  intro c hc
  rcases List.mem_append.mp hc with hc | hc
  · rcases List.mem_append.mp hc with hc | hc
    · rcases List.mem_append.mp hc with hc | hc
      · rw [List.mem_singleton.mp hc]; decide
      · exact basenameL_no_slash target_path.data c hc
    · rw [List.mem_singleton.mp hc]; decide
  · have : c ≠ '/' := fun h0 => hs (h0 ▸ hc)
    exact bne_iff_ne.mpr this

/-- The staging file name starts with a dot. -/
theorem tempName_head (target_path tmpSuffix : String) :
    ("." ++ osBasename target_path ++ "-" ++ tmpSuffix).data.head? = some '.' := rfl

/-- The staging file name is strictly longer than the basename it is built
from, hence different from it. -/
theorem tempName_ne_basename (target_path tmpSuffix : String) :
    ((['.'] ++ basenameL target_path.data) ++ ['-']) ++ tmpSuffix.data
      ≠ basenameL target_path.data := by
  intro h
  have hlen := congrArg List.length h
  simp [List.length_append] at hlen
  omega

/-- The staging path differs from the target path. -/
theorem tempPathFor_ne_target (target_path tmpSuffix : String)
    (hs : '/' ∉ tmpSuffix.data) :
    tempPathFor target_path tmpSuffix ≠ target_path := by
  have hn := tempName_no_slash target_path tmpSuffix hs
  have hnd : ("." ++ osBasename target_path ++ "-" ++ tmpSuffix).data
      = ((['.'] ++ basenameL target_path.data) ++ ['-']) ++ tmpSuffix.data := rfl
  intro heq
  simp only [tempPathFor, osJoin] at heq
  rw [if_neg (by rw [tempName_head]; simp)] at heq
  by_cases hd : osDirname target_path = ""
      ∨ (osDirname target_path).data.getLast? = some '/'
  · rw [if_pos hd] at heq
    have hb : basenameL ((osDirname target_path).data
        ++ ("." ++ osBasename target_path ++ "-" ++ tmpSuffix).data)
        = basenameL target_path.data :=
      congrArg (fun s : String => basenameL s.data) heq
    rcases hd with hd | hd
    · have hdd : (osDirname target_path).data = [] := by rw [hd]
      rw [hdd, List.nil_append, basenameL_of_no_slash _ hn, hnd] at hb
      exact tempName_ne_basename target_path tmpSuffix hb
    · have ha : (osDirname target_path).data.reverse.head? = some '/' := by
        rw [← List.getLast?_eq_head?_reverse]; exact hd
      rw [basenameL_append_of_last_slash _ _ ha hn, hnd] at hb
      exact tempName_ne_basename target_path tmpSuffix hb
  · rw [if_neg hd] at heq
    have ha : ((osDirname target_path).data ++ ['/']).reverse.head? = some '/' := by
      rw [List.reverse_append]; rfl
    have hb : basenameL (((osDirname target_path).data ++ ['/'])
        ++ ("." ++ osBasename target_path ++ "-" ++ tmpSuffix).data)
        = basenameL target_path.data :=
      congrArg (fun s : String => basenameL s.data) heq
    rw [basenameL_append_of_last_slash _ _ ha hn, hnd] at hb
    exact tempName_ne_basename target_path tmpSuffix hb

/-- If a dirname ends in a slash it consists only of slashes (the source
strips trailing slashes except in the all-slash case). -/
theorem dirnameL_all_slash_of_last_slash (p : List Char)
    (h : (dirnameL p).getLast? = some '/') : ∀ c ∈ dirnameL p, c = '/' := by
  by_cases hall : (headSlashL p).all (fun c => c == '/') = true
  · have hdef : dirnameL p = headSlashL p := by simp only [dirnameL, if_pos hall]
    intro c hc
    rw [hdef] at hc
    have := List.all_eq_true.mp hall c hc
    exact eq_of_beq this
  · exfalso
    have hdef : dirnameL p
        = ((headSlashL p).reverse.dropWhile (fun c => c == '/')).reverse := by
      simp only [dirnameL, if_neg hall]
    rw [hdef, List.getLast?_eq_head?_reverse, List.reverse_reverse] at h
    have := head?_dropWhile_false _ _ h
    simp at this

/-- Appending a slash-free name to a nonempty all-slash directory keeps the
dirname equal to that directory. -/
theorem dirnameL_append_all_slash (d n : List Char) (hd : ∀ c ∈ d, c = '/')
    (hne : d ≠ []) (hn : ∀ c ∈ n, (c != '/') = true) :
    dirnameL (d ++ n) = d := by
  have h1 : (d ++ n).reverse.dropWhile (fun c => c != '/') = d.reverse := by
    rw [List.reverse_append,
      dropWhile_append_of_all _ _ (fun c hc => hn c (List.mem_reverse.mp hc))]
    cases hrev : d.reverse with
    | nil => exact absurd (List.reverse_eq_nil_iff.mp hrev) hne
    | cons x xs =>
      have hx : x = '/' := hd x (List.mem_reverse.mp (hrev ▸ List.mem_cons_self x xs))
      subst hx
      rw [List.dropWhile_cons, if_neg (by decide)]
  have hhead : headSlashL (d ++ n) = d := by
    rw [headSlashL, h1, List.reverse_reverse]
  have hall : (headSlashL (d ++ n)).all (fun c => c == '/') = true := by
    rw [hhead]
    exact List.all_eq_true.mpr fun c hc => beq_iff_eq.mpr (hd c hc)
  have hdef : dirnameL (d ++ n) = headSlashL (d ++ n) := by
    simp only [dirnameL, if_pos hall]
  rw [hdef, hhead]

/-- Appending `/name` (slash-free name) to a nonempty directory that does not
end in a slash keeps the dirname equal to that directory. -/
theorem dirnameL_append_sep (d n : List Char) (hne : d ≠ [])
    (hlast : d.getLast? ≠ some '/') (hn : ∀ c ∈ n, (c != '/') = true) :
    dirnameL ((d ++ ['/']) ++ n) = d := by
  cases hrev : d.reverse with
  | nil => exact absurd (List.reverse_eq_nil_iff.mp hrev) hne
  | cons x xs =>
    have hx : x ≠ '/' := by
      intro hx0
      exact hlast (by rw [List.getLast?_eq_head?_reverse, hrev, hx0]; rfl)
    have h1 : ((d ++ ['/']) ++ n).reverse.dropWhile (fun c => c != '/')
        = '/' :: d.reverse := by
      rw [List.reverse_append,
        dropWhile_append_of_all _ _ (fun c hc => hn c (List.mem_reverse.mp hc)),
        List.reverse_append]
      rfl
    have hhead : headSlashL ((d ++ ['/']) ++ n) = d ++ ['/'] := by
      rw [headSlashL, h1, List.reverse_cons, List.reverse_reverse]
    have hall : ¬ ((headSlashL ((d ++ ['/']) ++ n)).all (fun c => c == '/') = true) := by
      rw [hhead]
      intro hall
      have hxmem : x ∈ d ++ ['/'] :=
        List.mem_append_left _ (List.mem_reverse.mp (hrev ▸ List.mem_cons_self x xs))
      exact hx (eq_of_beq (List.all_eq_true.mp hall x hxmem))
    have hdef : dirnameL ((d ++ ['/']) ++ n)
        = ((headSlashL ((d ++ ['/']) ++ n)).reverse.dropWhile (fun c => c == '/')).reverse := by
      simp only [dirnameL, if_neg hall]
    rw [hdef, hhead, List.reverse_append]
    have hsingle : (['/'] : List Char).reverse = ['/'] := rfl
    rw [hsingle,
      dropWhile_append_of_all ['/'] d.reverse
        (by intro c hc; rw [List.mem_singleton.mp hc]; rfl),
      hrev, List.dropWhile_cons, if_neg (by simp [hx]), ← hrev, List.reverse_reverse]

/-- The staging file lives in the same directory as the target. -/
theorem osDirname_tempPathFor (target_path tmpSuffix : String)
    (hs : '/' ∉ tmpSuffix.data) :
    osDirname (tempPathFor target_path tmpSuffix) = osDirname target_path := by
  have hn := tempName_no_slash target_path tmpSuffix hs
  simp only [tempPathFor, osJoin]
  rw [if_neg (by rw [tempName_head]; simp)]
  by_cases hd : osDirname target_path = ""
      ∨ (osDirname target_path).data.getLast? = some '/'
  · rw [if_pos hd]
    rcases hd with hd | hd
    · rw [hd]
      have hid : ("" ++ ("." ++ osBasename target_path ++ "-" ++ tmpSuffix))
          = ("." ++ osBasename target_path ++ "-" ++ tmpSuffix) := rfl
      rw [hid]
      exact String.ext (dirnameL_of_no_slash _ hn)
    · have hne : (osDirname target_path).data ≠ [] := by
        intro h0
        rw [h0] at hd
        cases hd
      have hall := dirnameL_all_slash_of_last_slash target_path.data hd
      exact String.ext (dirnameL_append_all_slash _ _ hall hne hn)
  · rw [if_neg hd]
    push_neg at hd
    apply String.ext
    show dirnameL (((osDirname target_path).data ++ ['/'])
        ++ ("." ++ osBasename target_path ++ "-" ++ tmpSuffix).data)
      = (osDirname target_path).data
    apply dirnameL_append_sep
    · intro h0
      exact hd.1 (String.ext h0)
    · exact hd.2
    · exact hn

/-- Claim C6: a write scope that completes normally installs exactly the new
content at the target with mode `0666 & ~umask` by renaming away the staging
file, which was created in the same directory as the target; a scope that
raises leaves the pre-existing target untouched and the staging file merely
orphaned, never renamed over the target. -/
theorem atomic_file_write_contract (current_umask : Int)
    (fs0 : String → Option FileState) (target_path tmpSuffix content : String)
    (e : PyErr) (hs : '/' ∉ tmpSuffix.data) :
    (atomic_file_write current_umask fs0 target_path tmpSuffix
        (content, Except.ok ())).2 = Except.ok ()
    ∧ (atomic_file_write current_umask fs0 target_path tmpSuffix
        (content, Except.ok ())).1 target_path
        = some ⟨content, Int.land 0o666 (Int.lnot (get_umask current_umask))⟩
    ∧ (atomic_file_write current_umask fs0 target_path tmpSuffix
        (content, Except.ok ())).1 (tempPathFor target_path tmpSuffix) = none
    ∧ osDirname (tempPathFor target_path tmpSuffix) = osDirname target_path
    ∧ (atomic_file_write current_umask fs0 target_path tmpSuffix
        (content, Except.error e)).2 = Except.error e
    ∧ (atomic_file_write current_umask fs0 target_path tmpSuffix
        (content, Except.error e)).1 target_path = fs0 target_path
    ∧ (atomic_file_write current_umask fs0 target_path tmpSuffix
        (content, Except.error e)).1 (tempPathFor target_path tmpSuffix)
        = some ⟨content, tempFileMode⟩ := by
  have hne : target_path ≠ tempPathFor target_path tmpSuffix :=
    fun h => tempPathFor_ne_target target_path tmpSuffix hs h.symm
  refine ⟨rfl, ?_, ?_, osDirname_tempPathFor target_path tmpSuffix hs, rfl, ?_, ?_⟩
  · simp [atomic_file_write, fsUpdate, hne]
  · simp [atomic_file_write, fsUpdate, hne]
  · simp [atomic_file_write, fsUpdate, hne]
  · simp [atomic_file_write, fsUpdate]

/-- Witness for C6 at a concrete target, umask `0o022`, pre-existing content
and a failing scope. -/
theorem atomic_file_write_contract_witness :
    (atomic_file_write 0o022 (fun _ => some ⟨"old", 0o644⟩) "/etc/paasta/deploy.json"
        "Abc123" ("newdata", Except.ok ())).2 = Except.ok ()
    ∧ (atomic_file_write 0o022 (fun _ => some ⟨"old", 0o644⟩) "/etc/paasta/deploy.json"
        "Abc123" ("newdata", Except.ok ())).1 "/etc/paasta/deploy.json"
        = some ⟨"newdata", Int.land 0o666 (Int.lnot (get_umask 0o022))⟩
    ∧ (atomic_file_write 0o022 (fun _ => some ⟨"old", 0o644⟩) "/etc/paasta/deploy.json"
        "Abc123" ("newdata", Except.ok ())).1
        (tempPathFor "/etc/paasta/deploy.json" "Abc123") = none
    ∧ osDirname (tempPathFor "/etc/paasta/deploy.json" "Abc123")
        = osDirname "/etc/paasta/deploy.json"
    ∧ (atomic_file_write 0o022 (fun _ => some ⟨"old", 0o644⟩) "/etc/paasta/deploy.json"
        "Abc123" ("newdata", Except.error PyErr.noSuchLogLevel)).2
        = Except.error PyErr.noSuchLogLevel
    ∧ (atomic_file_write 0o022 (fun _ => some ⟨"old", 0o644⟩) "/etc/paasta/deploy.json"
        "Abc123" ("newdata", Except.error PyErr.noSuchLogLevel)).1 "/etc/paasta/deploy.json"
        = some ⟨"old", 0o644⟩
    ∧ (atomic_file_write 0o022 (fun _ => some ⟨"old", 0o644⟩) "/etc/paasta/deploy.json"
        "Abc123" ("newdata", Except.error PyErr.noSuchLogLevel)).1
        (tempPathFor "/etc/paasta/deploy.json" "Abc123")
        = some ⟨"newdata", tempFileMode⟩ :=
  atomic_file_write_contract 0o022 (fun _ => some ⟨"old", 0o644⟩) "/etc/paasta/deploy.json"
    "Abc123" "newdata" PyErr.noSuchLogLevel (by decide)
